import Mathlib

/-!
# Verification of the `upptest` micro unit-test framework (`upptest.h`)

A shallow embedding of the core of `upptest.h`: the `Result` record, the
`Test::execute` lifecycle wrapper, the `Basic_Assert` assertion layer and the
`Runner` loop, together with theorems settling the specification claims.

Modelling conventions:
* A C++ throw is modelled by the inductive `Thrown`.  The constructors mirror
  exactly the catch structure of `Test::execute`: `sig` is an
  `assert_fail_exception` (message, file, line), `std` is any other exception
  derived from `std::exception` (its `what()` pointer modelled as
  `Option String`, `none` when the pointer is null), and `other` is a thrown
  value not derived from `std::exception` (C++ permits throwing anything),
  which no catch clause of `execute` matches.
* A user hook (`pre_test`, `execute_test`, `post_test`) interacts with the
  framework only by returning or throwing, so a test case is modelled as the
  triple of its hooks' outcomes: `none` = the hook returns normally,
  `some ex` = the hook throws `ex`.
* `std::chrono::steady_clock` is monotonic; its readings are modelled as
  `Nat` nanosecond timestamps passed in as parameters, and
  `duration_cast<milliseconds>` is truncating division by 1000000.
* `execute` takes and mutates a `Result` by reference; the model returns the
  final state of that `Result` together with the control-flow outcome
  (`Except.ok status` = normal return, `Except.error ex` = the exception `ex`
  escapes `execute`) and a trace of which hooks were invoked.
-/

namespace utest

/-- `enum class Status { not_run, pass, fail }` from `upptest.h`. -/
inductive Status where
  | not_run
  | pass
  | fail
deriving DecidableEq, Repr

/-- A C++ thrown value, partitioned the way the catch clauses of
`Test::execute` distinguish it: `sig` models `assert_fail_exception`
(message, file name, line number), `std` models any other exception derived
from `std::exception` (`what()` result, `none` for a null pointer), `other`
models any thrown value not derived from `std::exception`. -/
inductive Thrown where
  | sig (msg : String) (file : String) (line : Int)
  | std (what : Option String)
  | other
deriving DecidableEq, Repr

/-- A test case: `Test::execute` interacts with the user's `pre_test`,
`execute_test` and `post_test` hooks only through normal return (`none`) or a
thrown value (`some ex`), so each hook is modelled by its outcome. -/
structure Test where
  pre_test : Option Thrown
  execute_test : Option Thrown
  post_test : Option Thrown
deriving DecidableEq, Repr

/-- `Info`: descriptor metadata plus the factory producing a fresh test
case (`Factory_Func f`). -/
structure Info where
  f : Unit → Test
  name : String
  category : String
  file : String
  line : Int

/-- `struct Result` from `upptest.h`: the outcome record of one execution. -/
structure Result where
  info : Option Info
  status : Status
  duration : Int
  err_message : String
  err_file : String
  err_line : Int

/-- The `Result()` default constructor: null info pointer, `not_run`,
zero duration, empty error fields. -/
def Result.init : Result :=
  { info := none
  , status := Status.not_run
  , duration := 0
  , err_message := ""
  , err_file := ""
  , err_line := 0 }

/-- `Result::exception(ex)`: sets `status = fail` and
`err_message = "unhandled exception"`, and when `ex.what()` is a non-null
pointer appends `": "` followed by the `what()` text.  Note the source tests
the pointer for null (`if (ex.what())`), not the text for emptiness, so a
non-null empty `what()` still gets the `": "` suffix. -/
def Result.exception (res : Result) (what : Option String) : Result :=
  { res with
    status := Status.fail
  , err_message :=
      match what with
      | some w => "unhandled exception" ++ ": " ++ w
      | none => "unhandled exception" }

/-- `Result::fail(msg, file_name, line_num)`: records an assertion failure. -/
def Result.fail (res : Result) (msg : String) (file_name : String)
    (line_num : Int) : Result :=
  { res with
    status := Status.fail
  , err_message := msg
  , err_file := file_name
  , err_line := line_num }

/-- Which hook invocations happened during one `Test::execute` call. -/
inductive Event where
  | preRun
  | bodyRun
  | postRun
deriving DecidableEq, Repr

/-- `true` exactly on the teardown-invocation event. -/
def Event.isPostRun : Event → Bool
  | Event.postRun => true
  | _ => false

/-- The result of one `Test::execute` call: the control-flow outcome
(`Except.ok status` for a normal return of `status`, `Except.error ex` when
the exception `ex` escapes `execute`), the final state of the by-reference
`Result` argument, and the trace of hook invocations. -/
structure ExecOutput where
  outcome : Except Thrown Status
  res : Result
  trace : List Event

/-- The two catch clauses of `Test::execute`, applied to a value thrown
inside the try block: `catch (const assert_fail_exception& ex)` calls
`res.fail(ex.what_str(), ex.file_name(), ex.line_num())`,
`catch (const std::exception& ex)` calls `res.exception(ex)`, and a thrown
value matching neither clause propagates (there is no `catch (...)`). -/
def catchClauses (res : Result) : Thrown → Except Thrown Result
  | Thrown.sig m f l => Except.ok (res.fail m f l)
  | Thrown.std w => Except.ok (res.exception w)
  | Thrown.other => Except.error Thrown.other

/-- `Test::execute(res)` from `upptest.h`:

```
try { pre_test(); execute_test(); res.status = Status::pass; }
catch (const assert_fail_exception& ex) { res.fail(...); }
catch (const std::exception& ex) { res.exception(ex); }
post_test();
res.duration = duration_cast<milliseconds>(end - start);
return res.status;
```

`post_test()` and the duration/return statements sit outside the try block:
they are reached only when the try block completed or a catch clause matched,
and an exception thrown by `post_test()` itself escapes `execute`.
`startT`/`endT` are the two `steady_clock::now()` readings in nanoseconds. -/
def Test.execute (t : Test) (startT endT : Nat) (res : Result) : ExecOutput :=
  let tryOutcome : Except Thrown Result :=
    match t.pre_test with
    | some ex => catchClauses res ex
    | none =>
      match t.execute_test with
      | some ex => catchClauses res ex
      | none => Except.ok { res with status := Status.pass }
  let tryTrace : List Event :=
    match t.pre_test with
    | some _ => [Event.preRun]
    | none => [Event.preRun, Event.bodyRun]
  match tryOutcome with
  | Except.error ex => ⟨Except.error ex, res, tryTrace⟩
  | Except.ok res1 =>
    match t.post_test with
    | some ex => ⟨Except.error ex, res1, tryTrace ++ [Event.postRun]⟩
    | none =>
      let res2 := { res1 with
        duration := (Int.ofNat ((endT - startT) / 1000000)) }
      ⟨Except.ok res2.status, res2, tryTrace ++ [Event.postRun]⟩

/-- `Default_Fail_Handler::handle`: throws
`assert_fail_exception(message, file_name, line_num)`.  A pluggable handler
either throws (`some ex`) or returns (`none`); the default always throws. -/
def Default_Fail_Handler.handle (message : String) (file_name : String)
    (line_num : Int) : Option Thrown :=
  some (Thrown.sig message file_name line_num)

/-- The handler type a `Basic_Assert` instantiation is parametrised by. -/
def FailHandler : Type := String → String → Int → Option Thrown

namespace Basic_Assert

/-- `Basic_Assert<H>::fail(message, file_name, line_num)`: delegates to the
fail handler. -/
def fail (H : FailHandler) (message : String) (file_name : String)
    (line_num : Int) : Option Thrown :=
  H message file_name line_num

/-- `Basic_Assert<H>::is_null(ptr, ...)`: returns normally when
`ptr == nullptr`, otherwise `fail("Expected [nullptr]", ...)`.  A `T*`
pointer is modelled as `Option α` with `none` for null. -/
def is_null {α : Type} (H : FailHandler) (ptr : Option α)
    (file_name : String) (line_num : Int) : Option Thrown :=
  match ptr with
  | none => none
  | some _ => fail H "Expected [nullptr]" file_name line_num

/-- `Basic_Assert<H>::is_not_null(ptr, ...)`: returns normally when
`ptr != nullptr`, otherwise `fail("Expected not [nullptr]", ...)`. -/
def is_not_null {α : Type} (H : FailHandler) (ptr : Option α)
    (file_name : String) (line_num : Int) : Option Thrown :=
  match ptr with
  | some _ => none
  | none => fail H "Expected not [nullptr]" file_name line_num

end Basic_Assert

namespace assert

/-- `assert::fail` = `Basic_Assert<Default_Fail_Handler>::fail`. -/
def fail (message : String) (file_name : String) (line_num : Int) :
    Option Thrown :=
  Basic_Assert.fail Default_Fail_Handler.handle message file_name line_num

/-- `assert::is_null` = `Basic_Assert<Default_Fail_Handler>::is_null`. -/
def is_null {α : Type} (ptr : Option α) (file_name : String)
    (line_num : Int) : Option Thrown :=
  Basic_Assert.is_null Default_Fail_Handler.handle ptr file_name line_num

/-- `assert::is_not_null` = `Basic_Assert<Default_Fail_Handler>::is_not_null`. -/
def is_not_null {α : Type} (ptr : Option α) (file_name : String)
    (line_num : Int) : Option Thrown :=
  Basic_Assert.is_not_null Default_Fail_Handler.handle ptr file_name line_num

end assert

namespace Runner

/-- `Runner::run(ti, out_res)` (the single-test entry point): constructs a
fresh test via the descriptor's factory, stamps `out_res.info = ti`, and
executes it.  `startT`/`endT` are that execution's clock readings. -/
def runSingle (ti : Info) (out_res : Result) (startT endT : Nat) :
    ExecOutput :=
  let tst := ti.f ()
  tst.execute startT endT { out_res with info := some ti }

/-- The loop body of the range overload of `Runner::run`: iterates the
descriptors; for each one accepted by `filt` it declares a fresh
`Result res`, runs the test, increments the pass counter when the returned
status is `pass`, increments the executed counter, and calls the observer
with `res`.  The second component collects the observer's arguments in call
order.  `clock n` gives the pair of `steady_clock` readings for the `n`-th
executed test.  An exception escaping `Test::execute` propagates out of the
loop (no observer call for that test, no aggregate status). -/
def runSeq (filt : Info → Bool) (clock : Nat → Nat × Nat) :
    List Info → Nat → Nat → Except Thrown Status × List Result
  | [], passCnt, testCnt =>
    (Except.ok (if passCnt = testCnt then Status.pass else Status.fail), [])
  | ti :: rest, passCnt, testCnt =>
    if filt ti then
      let out := runSingle ti Result.init (clock testCnt).1 (clock testCnt).2
      match out.outcome with
      | Except.error ex => (Except.error ex, [])
      | Except.ok r =>
        let next := runSeq filt clock rest
          (if r = Status.pass then passCnt + 1 else passCnt) (testCnt + 1)
        (next.1, out.res :: next.2)
    else
      runSeq filt clock rest passCnt testCnt

/-- The range overload of `Runner::run` with a filter predicate: runs the
loop with both counters at zero and returns
`pass == test_count ? Status::pass : Status::fail` together with the list of
observer calls. -/
def run (tests : List Info) (filt : Info → Bool) (clock : Nat → Nat × Nat) :
    Except Thrown Status × List Result :=
  runSeq filt clock tests 0 0

end Runner

/-- A hook outcome raises no Failure Signal carrying an empty message
(`assert::fail("")` is the way a user can raise one). -/
def sigMsgNonempty : Option Thrown → Prop
  | some (Thrown.sig m _ _) => m ≠ ""
  | _ => True

/-- A sample descriptor whose factory builds a test that passes:
all three hooks return normally. -/
def sampleInfo : Info :=
  { f := fun _ => ⟨none, none, none⟩
  , name := "t1"
  , category := "fast"
  , file := "t.cpp"
  , line := 1 }

end utest

open utest

/-! ## Shared helper lemmas -/

/-- Folding the literal prefix of the unhandled-exception message. -/
theorem unhandled_prefix_fold (D : String) :
    "unhandled exception" ++ ": " ++ D = "unhandled exception: " ++ D := by
  obtain ⟨dl⟩ := D
  rfl

/-! ## C3 — message format for a non-assertion (std::exception) error -/

/-- C3 counterexample: a `std::exception` whose `what()` is a non-null empty
string.  The description `D = ""` is empty, yet `err_message` is
`"unhandled exception: "` (with the trailing colon and space), not the bare
`"unhandled exception"` the claim requires, because `Result::exception` tests
the `what()` pointer for null, not the text for emptiness. -/
theorem C3_counterexample :
    (Test.execute ⟨none, some (Thrown.std (some "")), none⟩ 0 0
        Result.init).res.err_message = "unhandled exception: " ∧
    ("unhandled exception: " : String) ≠ "unhandled exception" ∧
    (Test.execute ⟨none, some (Thrown.std (some "")), none⟩ 0 0
        Result.init).res.status = Status.fail := by
  refine ⟨by decide, by decide, rfl⟩

/-- C3 (amended): for a test whose body raises a non-assertion
(`std::exception`) error, the `Result` has `status = fail`;
`err_message` is `"unhandled exception: " ++ D` when the error carries a
(non-null) description `D` — including the empty description — and exactly
the bare `"unhandled exception"` (no trailing colon) when the `what()`
pointer is null; `err_file` and `err_line` keep their defaults. -/
theorem C3_unhandled_exception_message (d : Option String) (s e : Nat) :
    (Test.execute ⟨none, some (Thrown.std d), none⟩ s e
        Result.init).res.status = Status.fail ∧
    (Test.execute ⟨none, some (Thrown.std d), none⟩ s e
        Result.init).res.err_message =
      (match d with
       | some D => "unhandled exception: " ++ D
       | none => "unhandled exception") ∧
    (Test.execute ⟨none, some (Thrown.std d), none⟩ s e
        Result.init).res.err_file = "" ∧
    (Test.execute ⟨none, some (Thrown.std d), none⟩ s e
        Result.init).res.err_line = 0 := by
  cases d with
  | none => exact ⟨rfl, rfl, rfl, rfl⟩
  | some D => exact ⟨rfl, unhandled_prefix_fold D, rfl, rfl⟩

/-! ## C4 — is_null / is_not_null messages -/

/-- C4 counterexample: the failure messages use `[nullptr]`, not `[null]` as
the claim states: `is_null` on a non-null pointer raises
`"Expected [nullptr]"` and `is_not_null` on a null pointer raises
`"Expected not [nullptr]"`. -/
theorem C4_counterexample :
    assert.is_null (some (0 : Nat)) "t.cpp" 5 =
      some (Thrown.sig "Expected [nullptr]" "t.cpp" 5) ∧
    ("Expected [nullptr]" : String) ≠ "Expected [null]" ∧
    assert.is_not_null (none : Option Nat) "t.cpp" 6 =
      some (Thrown.sig "Expected not [nullptr]" "t.cpp" 6) ∧
    ("Expected not [nullptr]" : String) ≠ "Expected not [null]" := by
  exact ⟨rfl, by decide, rfl, by decide⟩

/-- C4 (amended): for any pointer argument, `is_null` returns normally on a
null pointer and raises an assertion failure with message
`"Expected [nullptr]"` on a non-null one; `is_not_null` returns normally on a
non-null pointer and raises `"Expected not [nullptr]"` on a null one (the
raised signal carries the call site's file and line). -/
theorem C4_null_checks (α : Type) (fileN : String) (lineN : Int) (x : α) :
    assert.is_null (none : Option α) fileN lineN = none ∧
    assert.is_null (some x) fileN lineN =
      some (Thrown.sig "Expected [nullptr]" fileN lineN) ∧
    assert.is_not_null (some x) fileN lineN = none ∧
    assert.is_not_null (none : Option α) fileN lineN =
      some (Thrown.sig "Expected not [nullptr]" fileN lineN) := by
  exact ⟨rfl, rfl, rfl, rfl⟩

/-! ## C5 — a Failure Signal's payload is copied into the Result -/

/-- C5: for a test whose body raises a Failure Signal
(`assert_fail_exception`) with message `M`, file `F` and line `L`, the
`Result` after `execute` has `status = fail`, `err_message = M`,
`err_file = F` and `err_line = L` — whatever the teardown hook then does. -/
theorem C5_failure_signal_recorded (M F : String) (L : Int)
    (post : Option Thrown) (s e : Nat) :
    (Test.execute ⟨none, some (Thrown.sig M F L), post⟩ s e
        Result.init).res.status = Status.fail ∧
    (Test.execute ⟨none, some (Thrown.sig M F L), post⟩ s e
        Result.init).res.err_message = M ∧
    (Test.execute ⟨none, some (Thrown.sig M F L), post⟩ s e
        Result.init).res.err_file = F ∧
    (Test.execute ⟨none, some (Thrown.sig M F L), post⟩ s e
        Result.init).res.err_line = L := by
  cases post with
  | none => exact ⟨rfl, rfl, rfl, rfl⟩
  | some ex => exact ⟨rfl, rfl, rfl, rfl⟩

/-! ## C1 — containment of errors by execute -/

/-- C1 counterexample: an error raised inside the teardown hook escapes
`execute` — even the framework's own `assert_fail_exception` — because
`post_test()` is called outside the try/catch block.  No Status is
returned. -/
theorem C1_counterexample :
    (Test.execute ⟨none, none, some (Thrown.sig "teardown assert" "t.cpp" 9)⟩
        0 0 Result.init).outcome
      = Except.error (Thrown.sig "teardown assert" "t.cpp" 9) ∧
    (Test.execute ⟨none, none, some (Thrown.sig "teardown assert" "t.cpp" 9)⟩
        0 0 Result.init).outcome ≠ Except.ok Status.pass ∧
    (Test.execute ⟨none, none, some (Thrown.sig "teardown assert" "t.cpp" 9)⟩
        0 0 Result.init).outcome ≠ Except.ok Status.fail ∧
    (Test.execute ⟨none, none, some (Thrown.sig "teardown assert" "t.cpp" 9)⟩
        0 0 Result.init).outcome ≠ Except.ok Status.not_run := by
  refine ⟨rfl, ?_, ?_, ?_⟩ <;> intro h
  · exact nomatch (show Except.error (Thrown.sig "teardown assert" "t.cpp" 9)
      = Except.ok Status.pass from h)
  · exact nomatch (show Except.error (Thrown.sig "teardown assert" "t.cpp" 9)
      = Except.ok Status.fail from h)
  · exact nomatch (show Except.error (Thrown.sig "teardown assert" "t.cpp" 9)
      = Except.ok Status.not_run from h)

/-- C1 (amended): `execute` catches every Failure Signal and every
`std::exception` raised in the setup hook or the body.  Provided setup and
body raise no error outside those two kinds and the teardown hook completes
without raising, `execute` returns a Status (never `not_run`) with the
Result's status and duration populated.  Errors raised by the teardown hook,
and thrown values not derived from `std::exception`, escape `execute`. -/
theorem C1_containment (t : Test) (s e : Nat) (r0 : Result)
    (h1 : t.pre_test ≠ some Thrown.other)
    (h2 : t.execute_test ≠ some Thrown.other)
    (h3 : t.post_test = none) :
    ∃ st : Status,
      (t.execute s e r0).outcome = Except.ok st ∧
      st ≠ Status.not_run ∧
      (t.execute s e r0).res.status = st ∧
      (t.execute s e r0).res.duration = Int.ofNat ((e - s) / 1000000) := by
  obtain ⟨pre, body, post⟩ := t
  simp only at h1 h2 h3
  subst h3
  cases pre with
  | some ex =>
    cases ex with
    | sig m f l => exact ⟨Status.fail, rfl, by decide, rfl, rfl⟩
    | std w => exact ⟨Status.fail, rfl, by decide, rfl, rfl⟩
    | other => exact absurd rfl h1
  | none =>
    cases body with
    | some ex =>
      cases ex with
      | sig m f l => exact ⟨Status.fail, rfl, by decide, rfl, rfl⟩
      | std w => exact ⟨Status.fail, rfl, by decide, rfl, rfl⟩
      | other => exact absurd rfl h2
    | none => exact ⟨Status.pass, rfl, by decide, rfl, rfl⟩

/-- Witness for `C1_containment` at a concrete passing test. -/
theorem C1_containment_witness :
    (⟨none, none, none⟩ : Test).pre_test ≠ some Thrown.other ∧
    ∃ st : Status,
      (Test.execute ⟨none, none, none⟩ 0 0 Result.init).outcome
        = Except.ok st ∧
      st ≠ Status.not_run ∧
      (Test.execute ⟨none, none, none⟩ 0 0 Result.init).res.status = st ∧
      (Test.execute ⟨none, none, none⟩ 0 0 Result.init).res.duration
        = Int.ofNat ((0 - 0) / 1000000) :=
  ⟨by decide,
   C1_containment ⟨none, none, none⟩ 0 0 Result.init (by decide) (by decide)
     rfl⟩

/-! ## C2 — teardown invoked exactly once -/

/-- C2 counterexample: when the body throws a value not derived from
`std::exception`, no catch clause matches, the exception unwinds out of
`execute`, and `post_test()` — which sits after the try block — is never
invoked: the teardown hook runs zero times, not once. -/
theorem C2_counterexample :
    ((Test.execute ⟨none, some Thrown.other, none⟩ 0 0
        Result.init).trace.countP Event.isPostRun) = 0 ∧
    (0 : Nat) ≠ 1 :=
  ⟨rfl, by decide⟩

/-- C2 (amended): the teardown hook is invoked exactly once per `execute`
call whenever the setup hook and the body complete normally, raise a Failure
Signal, or raise a `std::exception`; but when either raises a value not
derived from `std::exception`, the teardown hook is not invoked at all. -/
theorem C2_teardown_once (t : Test) (s e : Nat) (r0 : Result)
    (h1 : t.pre_test ≠ some Thrown.other)
    (h2 : t.execute_test ≠ some Thrown.other) :
    ((t.execute s e r0).trace.countP Event.isPostRun) = 1 := by
  obtain ⟨pre, body, post⟩ := t
  simp only at h1 h2
  cases pre with
  | some ex =>
    cases ex with
    | sig m f l => cases post <;> rfl
    | std w => cases post <;> rfl
    | other => exact absurd rfl h1
  | none =>
    cases body with
    | some ex =>
      cases ex with
      | sig m f l => cases post <;> rfl
      | std w => cases post <;> rfl
      | other => exact absurd rfl h2
    | none => cases post <;> rfl

/-- Witness for `C2_teardown_once` at a concrete failing test. -/
theorem C2_teardown_once_witness :
    (⟨none, some (Thrown.sig "x" "f.cpp" 1), none⟩ : Test).execute_test
      ≠ some Thrown.other ∧
    ((Test.execute ⟨none, some (Thrown.sig "x" "f.cpp" 1), none⟩ 0 0
        Result.init).trace.countP Event.isPostRun) = 1 :=
  ⟨by decide,
   C2_teardown_once ⟨none, some (Thrown.sig "x" "f.cpp" 1), none⟩ 0 0
     Result.init (by decide) (by decide)⟩

/-! ## C8 — passing run yields a pass Result -/

/-- C8 counterexample: a test whose setup and body complete without raising
but whose teardown raises a `std::exception` does not make `execute` return
`pass` — the exception escapes and no Status is returned at all. -/
theorem C8_counterexample :
    (Test.execute ⟨none, none, some (Thrown.std (some "cleanup boom"))⟩ 0 0
        Result.init).outcome
      = Except.error (Thrown.std (some "cleanup boom")) ∧
    (Test.execute ⟨none, none, some (Thrown.std (some "cleanup boom"))⟩ 0 0
        Result.init).outcome ≠ Except.ok Status.pass := by
  refine ⟨rfl, ?_⟩
  intro h
  exact nomatch (show Except.error (Thrown.std (some "cleanup boom"))
    = Except.ok Status.pass from h)

/-- C8 (amended): for a test whose setup, body, and teardown all complete
without raising, `execute` returns `pass` and the (fresh) Result has
`status = pass`, `err_message = ""` and `duration ≥ 0`. -/
theorem C8_pass_result (s e : Nat) :
    (Test.execute ⟨none, none, none⟩ s e Result.init).outcome
      = Except.ok Status.pass ∧
    (Test.execute ⟨none, none, none⟩ s e Result.init).res.status
      = Status.pass ∧
    (Test.execute ⟨none, none, none⟩ s e Result.init).res.err_message = "" ∧
    0 ≤ (Test.execute ⟨none, none, none⟩ s e Result.init).res.duration :=
  ⟨rfl, rfl, rfl, Int.ofNat_nonneg _⟩

/-! ## C10 — frame effect of a passing execution -/

/-- C10: when setup, body and teardown all complete without raising,
`execute` sets only the `status` and `duration` fields of the caller's
Result; `err_message`, `err_file`, `err_line` and `info` keep whatever
values they held before the call (so a reused Result keeps stale error
fields after a passing run). -/
theorem C10_pass_frame (r0 : Result) (s e : Nat) :
    (Test.execute ⟨none, none, none⟩ s e r0).outcome
      = Except.ok Status.pass ∧
    (Test.execute ⟨none, none, none⟩ s e r0).res.status = Status.pass ∧
    (Test.execute ⟨none, none, none⟩ s e r0).res.duration
      = Int.ofNat ((e - s) / 1000000) ∧
    (Test.execute ⟨none, none, none⟩ s e r0).res.err_message
      = r0.err_message ∧
    (Test.execute ⟨none, none, none⟩ s e r0).res.err_file = r0.err_file ∧
    (Test.execute ⟨none, none, none⟩ s e r0).res.err_line = r0.err_line ∧
    (Test.execute ⟨none, none, none⟩ s e r0).res.info = r0.info :=
  ⟨rfl, rfl, rfl, rfl, rfl, rfl, rfl⟩

/-! ## C9 — Result error-field invariant -/

/-- The unhandled-exception message is never the empty string. -/
theorem exception_message_ne_empty (w : Option String) :
    (match w with
     | some d => "unhandled exception" ++ ": " ++ d
     | none => "unhandled exception") ≠ ("" : String) := by
  cases w with
  | none => decide
  | some d =>
    obtain ⟨dl⟩ := d
    intro h
    exact nomatch (congrArg String.data h)

/-- C9 counterexample: `assert::fail("")` — an unconditional failure with a
caller-supplied empty message — produces a Result with `status = fail` and
an empty `err_message`, violating the claimed invariant. -/
theorem C9_counterexample :
    (Test.execute ⟨none, assert.fail "" "a.cpp" 1, none⟩ 0 0
        Result.init).res.status = Status.fail ∧
    (Test.execute ⟨none, assert.fail "" "a.cpp" 1, none⟩ 0 0
        Result.init).res.err_message = "" :=
  ⟨rfl, rfl⟩

/-- C9 (amended): for an execution started on a fresh Result, provided no
hook raises a Failure Signal carrying an empty message (as
`assert::fail("")` would), the Result invariant holds: `status = fail`
implies `err_message` is non-empty, and `status = pass` implies the error
fields hold their defaults (`""`, `""`, `0`). -/
theorem C9_result_invariant (t : Test) (s e : Nat)
    (h1 : sigMsgNonempty t.pre_test) (h2 : sigMsgNonempty t.execute_test) :
    ((Test.execute t s e Result.init).res.status = Status.fail →
      (Test.execute t s e Result.init).res.err_message ≠ "") ∧
    ((Test.execute t s e Result.init).res.status = Status.pass →
      (Test.execute t s e Result.init).res.err_message = "" ∧
      (Test.execute t s e Result.init).res.err_file = "" ∧
      (Test.execute t s e Result.init).res.err_line = 0) := by
  obtain ⟨pre, body, post⟩ := t
  simp only [sigMsgNonempty] at h1 h2
  cases pre with
  | some ex =>
    cases ex with
    | sig m f l =>
      cases post <;>
        exact ⟨fun _ => h1,
          fun hp => nomatch (show Status.fail = Status.pass from hp)⟩
    | std w =>
      cases post <;>
        exact ⟨fun _ => exception_message_ne_empty w,
          fun hp => nomatch (show Status.fail = Status.pass from hp)⟩
    | other =>
      exact ⟨(fun hf => nomatch (show Status.not_run = Status.fail from hf)),
        (fun hp => nomatch (show Status.not_run = Status.pass from hp))⟩
  | none =>
    cases body with
    | some ex =>
      cases ex with
      | sig m f l =>
        cases post <;>
          exact ⟨fun _ => h2,
            fun hp => nomatch (show Status.fail = Status.pass from hp)⟩
      | std w =>
        cases post <;>
          exact ⟨fun _ => exception_message_ne_empty w,
            fun hp => nomatch (show Status.fail = Status.pass from hp)⟩
      | other =>
        exact ⟨(fun hf => nomatch (show Status.not_run = Status.fail from hf)),
          (fun hp => nomatch (show Status.not_run = Status.pass from hp))⟩
    | none =>
      cases post <;>
        exact ⟨(fun hf => nomatch (show Status.pass = Status.fail from hf)),
          (fun _ => ⟨rfl, rfl, rfl⟩)⟩

/-- Witness for `C9_result_invariant` at a test failing with message
`"boom"`. -/
theorem C9_result_invariant_witness :
    sigMsgNonempty (some (Thrown.sig "boom" "f.cpp" 2)) ∧
    (((Test.execute ⟨none, some (Thrown.sig "boom" "f.cpp" 2), none⟩ 0 0
        Result.init).res.status = Status.fail →
      (Test.execute ⟨none, some (Thrown.sig "boom" "f.cpp" 2), none⟩ 0 0
        Result.init).res.err_message ≠ "") ∧
     ((Test.execute ⟨none, some (Thrown.sig "boom" "f.cpp" 2), none⟩ 0 0
        Result.init).res.status = Status.pass →
      (Test.execute ⟨none, some (Thrown.sig "boom" "f.cpp" 2), none⟩ 0 0
        Result.init).res.err_message = "" ∧
      (Test.execute ⟨none, some (Thrown.sig "boom" "f.cpp" 2), none⟩ 0 0
        Result.init).res.err_file = "" ∧
      (Test.execute ⟨none, some (Thrown.sig "boom" "f.cpp" 2), none⟩ 0 0
        Result.init).res.err_line = 0)) :=
  ⟨(by decide : ("boom" : String) ≠ ""),
   C9_result_invariant ⟨none, some (Thrown.sig "boom" "f.cpp" 2), none⟩ 0 0
     trivial (by decide : ("boom" : String) ≠ "")⟩

/-! ## Runner lemmas (C6, C7) -/

/-- When `execute` returns normally, the returned status is the final
`status` field of the Result (the source returns `res.status`). -/
theorem execute_ok_status (t : Test) (s e : Nat) (r0 : Result) (st : Status)
    (h : (t.execute s e r0).outcome = Except.ok st) :
    (t.execute s e r0).res.status = st := by
  obtain ⟨pre, body, post⟩ := t
  cases pre with
  | some ex =>
    cases ex <;> cases post <;>
      simp_all [Test.execute, catchClauses, Result.fail, Result.exception]
  | none =>
    cases body with
    | some ex =>
      cases ex <;> cases post <;>
        simp_all [Test.execute, catchClauses, Result.fail, Result.exception]
    | none =>
      cases post <;>
        simp_all [Test.execute, catchClauses, Result.fail, Result.exception]

/-- The single-test `Runner::run` entry point also returns the Result's
final status when it returns normally. -/
theorem runSingle_ok_status (ti : Info) (r0 : Result) (a b : Nat)
    (st : Status) (h : (Runner.runSingle ti r0 a b).outcome = Except.ok st) :
    (Runner.runSingle ti r0 a b).res.status = st :=
  execute_ok_status (ti.f ()) a b _ st h

/-- Loop invariant of the `Runner::run` range overload: assuming
`pass ≤ test_count` on entry, when the loop completes with status `s`, `s`
is `pass` exactly when the counters were equal on entry and every Result
handed to the observer during the remaining iterations has status `pass`. -/
theorem runSeq_aggregate (filt : Info → Bool) (clock : Nat → Nat × Nat)
    (tests : List Info) :
    ∀ (p c : Nat), p ≤ c → ∀ s : Status,
      (Runner.runSeq filt clock tests p c).1 = Except.ok s →
      (s = Status.pass ↔
        (p = c ∧ ∀ r ∈ (Runner.runSeq filt clock tests p c).2,
          r.status = Status.pass)) := by
  induction tests with
  | nil =>
    intro p c hpc s h
    by_cases hp : p = c
    · simp only [Runner.runSeq, if_pos hp] at h
      injection h with h'
      subst h'
      simp [Runner.runSeq, hp]
    · simp only [Runner.runSeq, if_neg hp] at h
      injection h with h'
      subst h'
      simp [Runner.runSeq, hp]
  | cons ti rest ih =>
    intro p c hpc s h
    by_cases hf : filt ti
    · cases hoc : (Runner.runSingle ti Result.init (clock c).1
          (clock c).2).outcome with
      | error ex =>
        simp only [Runner.runSeq, if_pos hf, hoc] at h
        exact nomatch h
      | ok r =>
        have hres := runSingle_ok_status ti Result.init (clock c).1
          (clock c).2 r hoc
        simp only [Runner.runSeq, if_pos hf, hoc] at h ⊢
        have IH := ih (if r = Status.pass then p + 1 else p) (c + 1)
          (by by_cases hr : r = Status.pass <;> simp [hr] <;> omega) s h
        rw [IH]
        constructor
        · rintro ⟨h1, h2⟩
          by_cases hr : r = Status.pass
          · rw [if_pos hr] at h1
            refine ⟨by omega, ?_⟩
            intro x hx
            rcases List.mem_cons.mp hx with hx | hx
            · rw [hx, hres, hr]
            · exact h2 x hx
          · rw [if_neg hr] at h1
            omega
        · rintro ⟨h1, h2⟩
          have hhead := h2 _ (List.mem_cons_self _ _)
          have hr : r = Status.pass := by rw [← hres]; exact hhead
          refine ⟨by rw [if_pos hr]; omega,
            fun x hx => h2 x (List.mem_cons_of_mem _ hx)⟩
    · simp only [Runner.runSeq, if_neg hf] at h ⊢
      exact ih p c hpc s h

/-- C6: when the range overload of `Runner::run` completes (no exception
escaped any execution), the aggregate status is `pass` if and only if every
Result delivered to the observer — one per filter-accepted descriptor — has
status `pass`; with zero executed tests this is vacuously `pass`.
Filter-rejected descriptors contribute nothing. -/
theorem C6_aggregate_pass_iff (tests : List Info) (filt : Info → Bool)
    (clock : Nat → Nat × Nat) (s : Status)
    (h : (Runner.run tests filt clock).1 = Except.ok s) :
    s = Status.pass ↔
      ∀ r ∈ (Runner.run tests filt clock).2, r.status = Status.pass := by
  have H := runSeq_aggregate filt clock tests 0 0 (Nat.le_refl 0) s h
  simpa using H

/-- Witness for `C6_aggregate_pass_iff`: a one-test run that passes. -/
theorem C6_aggregate_pass_iff_witness :
    (Runner.run [sampleInfo] (fun _ => true) (fun _ => (0, 0))).1
      = Except.ok Status.pass ∧
    (Status.pass = Status.pass ↔
      ∀ r ∈ (Runner.run [sampleInfo] (fun _ => true) (fun _ => (0, 0))).2,
        r.status = Status.pass) :=
  ⟨rfl, C6_aggregate_pass_iff [sampleInfo] (fun _ => true) (fun _ => (0, 0))
    Status.pass rfl⟩

/-- Loop invariant for observer delivery: with a constant clock, when the
loop completes, the observer was called exactly once per filter-accepted
descriptor, in iteration order, each time with that descriptor's execution
Result; rejected descriptors contribute no call. -/
theorem runSeq_observer (filt : Info → Bool) (a b : Nat)
    (tests : List Info) :
    ∀ (p c : Nat) (st : Status),
      (Runner.runSeq filt (fun _ => (a, b)) tests p c).1 = Except.ok st →
      (Runner.runSeq filt (fun _ => (a, b)) tests p c).2
        = (tests.filter filt).map
            (fun ti => (Runner.runSingle ti Result.init a b).res) := by
  induction tests with
  | nil =>
    intro p c st h
    simp [Runner.runSeq]
  | cons ti rest ih =>
    intro p c st h
    by_cases hf : filt ti
    · cases hoc : (Runner.runSingle ti Result.init a b).outcome with
      | error ex =>
        simp only [Runner.runSeq, if_pos hf, hoc] at h
        exact nomatch h
      | ok r =>
        simp only [Runner.runSeq, if_pos hf, hoc] at h ⊢
        rw [List.filter_cons_of_pos hf, List.map_cons]
        exact congrArg _ (ih _ _ st h)
    · simp only [Runner.runSeq, if_neg hf] at h ⊢
      rw [List.filter_cons_of_neg hf]
      exact ih p c st h

/-- C7: when the range overload of `Runner::run` completes, the sequence of
observer invocations is exactly one call per filter-accepted descriptor, in
iteration order, each receiving the Result of that descriptor's execution
(stamped with the descriptor); filter-rejected descriptors produce no
Result and no observer call. -/
theorem C7_observer_calls (tests : List Info) (filt : Info → Bool)
    (a b : Nat) (st : Status)
    (h : (Runner.run tests filt (fun _ => (a, b))).1 = Except.ok st) :
    (Runner.run tests filt (fun _ => (a, b))).2
      = (tests.filter filt).map
          (fun ti => (Runner.runSingle ti Result.init a b).res) :=
  runSeq_observer filt a b tests 0 0 st h

/-- Witness for `C7_observer_calls`: a run over one accepted and zero
rejected descriptors. -/
theorem C7_observer_calls_witness :
    (Runner.run [sampleInfo] (fun _ => true) (fun _ => (0, 0))).1
      = Except.ok Status.pass ∧
    (Runner.run [sampleInfo] (fun _ => true) (fun _ => (0, 0))).2
      = ([sampleInfo].filter (fun _ => true)).map
          (fun ti => (Runner.runSingle ti Result.init 0 0).res) :=
  ⟨rfl, C7_observer_calls [sampleInfo] (fun _ => true) 0 0 Status.pass rfl⟩
